import Mathlib

/-!
Verification development for the SlicerCaseIterator module
(`SlicerCaseIterator/SlicerCaseIterator.py`).

The module drives a review loop over a batch of imaging cases: a widget
(`SlicerCaseIteratorWidget`) holds an iteration cursor into a case manifest,
and a per-case logic object (`SlicerCaseHCCIteratorLogic`) matches files in a
subject directory against 18 canonical series names, assigns volumes and
segmentations to four views, and saves segmentations back to disk when a case
is closed.

The embedding below models names and file names as lists of characters
(Python strings), translates the file-matching, slot-assignment,
view-substitution, save and cursor logic directly from the source, and keeps
Python runtime errors (`TypeError`, `UnboundLocalError`) explicit as values of
`PyErr`.  A loaded MRML volume node is represented by the file name it was
loaded from; a segmentation node is represented by the record `SegNodeM`.
-/

namespace SCI

/-- A Python string: a list of characters. -/
abbrev Name := List Char

/-- Python `str.lower()` (the names involved are ASCII, where
`Char.toLower` agrees with Python). -/
def lower (s : Name) : Name := s.map Char.toLower

/-- Python `pat in s` for strings: `pat` occurs contiguously in `s`. -/
def pyContains (s pat : Name) : Bool :=
  (List.range (s.length + 1)).any (fun k => pat.isPrefixOf (s.drop k))

/-- Python `s.find(pat)`: index of the first occurrence of `pat` in `s`,
`-1` when there is none. -/
def pyFind (s pat : Name) : Int :=
  match (List.range (s.length + 1)).find? (fun k => pat.isPrefixOf (s.drop k)) with
  | some k => (k : Int)
  | none => -1

/-- Python `s[:i]`: for `i ≥ 0` the first `i` characters, for `i < 0` all but
the last `-i` characters. -/
def pySliceTo (s : Name) (i : Int) : Name :=
  if i < 0 then s.take ((s.length : Int) + i).toNat else s.take i.toNat

/-- The fixed file suffix `".nii.gz"`. -/
def niiSuffix : Name := ".nii.gz".data

/-- The fixed separator `"_tumor_"` between a series name and a reader name. -/
def tumorSep : Name := "_tumor_".data

/-- The fixed suffix `"_segment"` given to segmentation node names. -/
def segSuffix : Name := "_segment".data

/-- The `images` dictionary of `load_data_to_placeholders`: the 18 canonical
series names with their slot counts, in source order. -/
def images : List (Name × Nat) :=
  [("pre_T1_pre".data, 0), ("pre_T1_EA".data, 1), ("pre_T1_EA_sub".data, 2),
   ("pre_T1_LA".data, 3), ("pre_T1_LA_sub".data, 4), ("pre_T1_PV".data, 5),
   ("pre_T1_PV_sub".data, 6), ("pre_ADC".data, 7), ("post_T1_pre".data, 8),
   ("post_T1_EA".data, 9), ("post_T1_EA_sub".data, 10), ("post_T1_LA".data, 11),
   ("post_T1_LA_sub".data, 12), ("post_T1_PV".data, 13), ("post_T1_PV_sub".data, 14),
   ("post_ADC".data, 15), ("post_ADC_Eq_1".data, 16), ("pre_ADC_Eq_1".data, 17)]

/-- The volume test of `load_data_to_placeholders`:
`j.lower()+".nii.gz" in i.lower()`. -/
def volMatch (j f : Name) : Bool := pyContains (lower f) (lower j ++ niiSuffix)

/-- The label test of `load_data_to_placeholders`:
`j.lower()+"_tumor_"+reader_name.lower()+".nii.gz" in i.lower()`. -/
def labMatch (reader j f : Name) : Bool :=
  pyContains (lower f) (lower j ++ tumorSep ++ lower reader ++ niiSuffix)

/-- One step of the inner loop of `load_data_to_placeholders`, for file `i`
and dictionary entry `jc = (j, count)`: a matching volume file is appended to
`raws` (the loaded volume node is represented by the file name), a matching
tumor-label file is imported as a segmentation node named `j + "_segment"` and
appended to `labels`. -/
def scanStep (reader i : Name) (acc : List (Name × Nat) × List (Name × Nat))
    (jc : Name × Nat) : List (Name × Nat) × List (Name × Nat) :=
  let acc := if volMatch jc.1 i then (acc.1 ++ [(i, jc.2)], acc.2) else acc
  if labMatch reader jc.1 i then (acc.1, acc.2 ++ [(jc.1 ++ segSuffix, jc.2)]) else acc

/-- `load_data_to_placeholders`: scan the subject directory listing once; for
each file and each of the 18 canonical names, collect matched volumes in
`raws` and matched tumor labels in `labels`. -/
def load_data_to_placeholders (reader : Name) (listing : List Name) :
    List (Name × Nat) × List (Name × Nat) :=
  listing.foldl (fun acc i => images.foldl (scanStep reader i) acc) ([], [])

/-- The per-case slots of `SlicerCaseHCCIteratorLogic`: the 18 named volume
attributes and the 4 label attributes, all initialised to `None` in
`__init__`.  A volume slot holds the node loaded from a matched file
(represented by the file name), a label slot holds a segmentation node name. -/
structure CaseSlots where
  pre_T1_pre : Option Name := none
  pre_T1_EA : Option Name := none
  pre_T1_EA_sub : Option Name := none
  pre_T1_LA : Option Name := none
  pre_T1_LA_sub : Option Name := none
  pre_T1_PV : Option Name := none
  pre_T1_PV_sub : Option Name := none
  pre_ADC : Option Name := none
  post_T1_pre : Option Name := none
  post_T1_EA : Option Name := none
  post_T1_EA_sub : Option Name := none
  post_T1_LA : Option Name := none
  post_T1_LA_sub : Option Name := none
  post_T1_PV : Option Name := none
  post_T1_PV_sub : Option Name := none
  post_ADC : Option Name := none
  post_ADC_Eq_1 : Option Name := none
  pre_ADC_Eq_1 : Option Name := none
  pre_T1_label : Option Name := none
  post_T1_label : Option Name := none
  pre_ADC_label : Option Name := none
  post_ADC_label : Option Name := none
deriving DecidableEq

/-- The all-`None` slot state produced by `__init__`. -/
def emptyCase : CaseSlots := {}

/-- The `for i in raws` loop body of `select_placeholder_for_view`.  The
source tests `i[1] == 0`, …, `i[1] == 17` in 18 separate `if` statements on
the same scrutinee with pairwise distinct literals, so at most one of them
fires; the sequence is rendered as an `if … else if …` chain. -/
def assignRaw (s : CaseSlots) (i : Name × Nat) : CaseSlots :=
  if i.2 = 0 then { s with pre_T1_pre := some i.1 }
  else if i.2 = 1 then { s with pre_T1_EA := some i.1 }
  else if i.2 = 2 then { s with pre_T1_EA_sub := some i.1 }
  else if i.2 = 3 then { s with pre_T1_LA := some i.1 }
  else if i.2 = 4 then { s with pre_T1_LA_sub := some i.1 }
  else if i.2 = 5 then { s with pre_T1_PV := some i.1 }
  else if i.2 = 6 then { s with pre_T1_PV_sub := some i.1 }
  else if i.2 = 7 then { s with pre_ADC := some i.1 }
  else if i.2 = 8 then { s with post_T1_pre := some i.1 }
  else if i.2 = 9 then { s with post_T1_EA := some i.1 }
  else if i.2 = 10 then { s with post_T1_EA_sub := some i.1 }
  else if i.2 = 11 then { s with post_T1_LA := some i.1 }
  else if i.2 = 12 then { s with post_T1_LA_sub := some i.1 }
  else if i.2 = 13 then { s with post_T1_PV := some i.1 }
  else if i.2 = 14 then { s with post_T1_PV_sub := some i.1 }
  else if i.2 = 15 then { s with post_ADC := some i.1 }
  else if i.2 = 16 then { s with post_ADC_Eq_1 := some i.1 }
  else if i.2 = 17 then { s with pre_ADC_Eq_1 := some i.1 }
  else s

/-- The `for i in labels` loop body of `select_placeholder_for_view`.  The
source tests `i[1] in [1,3]`, `[9,11]`, `[15,16]`, `[7,17]` in four separate
`if` statements; the four count sets are pairwise disjoint, so the sequence
is rendered as an `if … else if …` chain. -/
def assignLabel (s : CaseSlots) (i : Name × Nat) : CaseSlots :=
  if i.2 = 1 ∨ i.2 = 3 then { s with pre_T1_label := some i.1 }
  else if i.2 = 9 ∨ i.2 = 11 then { s with post_T1_label := some i.1 }
  else if i.2 = 15 ∨ i.2 = 16 then { s with post_ADC_label := some i.1 }
  else if i.2 = 7 ∨ i.2 = 17 then { s with pre_ADC_label := some i.1 }
  else s

/-- `select_placeholder_for_view`: run `load_data_to_placeholders`, then fill
the volume slots from `raws` and the label slots from `labels` (last match
wins, since the loops assign in iteration order). -/
def select_placeholder_for_view (reader : Name) (listing : List Name) : CaseSlots :=
  let rl := load_data_to_placeholders reader listing
  (rl.2.foldl assignLabel (rl.1.foldl assignRaw emptyCase))

/-- The volume slot holding entries of count `k`, as a lookup on the 18
volume attributes (counts `0`–`17` in the order of the `images` dictionary). -/
def volSlot (s : CaseSlots) (k : Nat) : Option Name :=
  match k with
  | 0 => s.pre_T1_pre
  | 1 => s.pre_T1_EA
  | 2 => s.pre_T1_EA_sub
  | 3 => s.pre_T1_LA
  | 4 => s.pre_T1_LA_sub
  | 5 => s.pre_T1_PV
  | 6 => s.pre_T1_PV_sub
  | 7 => s.pre_ADC
  | 8 => s.post_T1_pre
  | 9 => s.post_T1_EA
  | 10 => s.post_T1_EA_sub
  | 11 => s.post_T1_LA
  | 12 => s.post_T1_LA_sub
  | 13 => s.post_T1_PV
  | 14 => s.post_T1_PV_sub
  | 15 => s.post_ADC
  | 16 => s.post_ADC_Eq_1
  | 17 => s.pre_ADC_Eq_1
  | _ => none

/-- The label slot of view `v`, in the view order of `_loadImages`
(`post_T1_label`, `pre_T1_label`, `post_ADC_label`, `pre_ADC_label`). -/
def labSlot (s : CaseSlots) (v : Nat) : Option Name :=
  match v with
  | 0 => s.post_T1_label
  | 1 => s.pre_T1_label
  | 2 => s.post_ADC_label
  | 3 => s.pre_ADC_label
  | _ => none

/-- The count sets feeding each label slot, per the `for i in labels` loop:
view 0 (post T1) collects counts `[9, 11]`, view 1 (pre T1) `[1, 3]`,
view 2 (post ADC) `[15, 16]`, view 3 (pre ADC) `[7, 17]`. -/
def labCounts (v : Nat) : List Nat :=
  match v with
  | 0 => [9, 11]
  | 1 => [1, 3]
  | 2 => [15, 16]
  | 3 => [7, 17]
  | _ => []

/-- The per-file contribution to `raws`: one entry per canonical name whose
volume pattern occurs in the file name. -/
def fileRaws (i : Name) : List (Name × Nat) :=
  (images.filter (fun jc => volMatch jc.1 i)).map (fun jc => (i, jc.2))

/-- The per-file contribution to `labels`: one entry per canonical name whose
tumor-label pattern occurs in the file name. -/
def fileLabels (reader i : Name) : List (Name × Nat) :=
  (images.filter (fun jc => labMatch reader jc.1 i)).map
    (fun jc => (jc.1 ++ segSuffix, jc.2))

/-- `seg_name[:seg_name.find("_segment")]` from `correct_volumesLoad`: the
part of a segmentation name before the first occurrence of `"_segment"`
(Python slicing: when `"_segment"` does not occur, `find` returns `-1` and
the slice drops the last character). -/
def stripSeg (seg_name : Name) : Name := pySliceTo seg_name (pyFind seg_name segSuffix)

/-- One substitution block of `correct_volumesLoad` (the same four source
lines appear once per view, with the view index and the alternate volume
slot as the only differences): if the view has a label whose stripped name
occurs in the name of the alternate volume, replace the view's background
volume by the alternate volume. -/
def substStep (alt : Option Name) (vols labs : List (Option Name)) (idx : Nat) :
    List (Option Name) :=
  match labs.getD idx none with
  | none => vols
  | some seg_name =>
    match alt with
    | none => vols
    | some altName =>
      if pyContains altName (stripSeg seg_name) then vols.set idx (some altName)
      else vols

/-- `correct_volumesLoad`: swap the late-arterial T1 for the early-arterial
T1 (views 0 and 1) or the ADC `Eq_1` for the ADC (view 2) when the
segmentation was drawn on the alternate series.  The corresponding block for
view 3 (`pre_ADC` / `pre_ADC_Eq_1`) is commented out in the source. -/
def correct_volumesLoad (c : CaseSlots) (volumesNode_list labelmapNode_list : List (Option Name)) :
    List (Option Name) :=
  let vols := substStep c.post_T1_LA volumesNode_list labelmapNode_list 0
  let vols := substStep c.pre_T1_LA vols labelmapNode_list 1
  let vols := substStep c.post_ADC_Eq_1 vols labelmapNode_list 2
  vols

/-- `self.volumesLoad = [post_T1_EA, pre_T1_EA, post_ADC, pre_ADC]` in
`_loadImages`. -/
def volumesLoadOf (c : CaseSlots) : List (Option Name) :=
  [c.post_T1_EA, c.pre_T1_EA, c.post_ADC, c.pre_ADC]

/-- `self.labelVolumesLoad = [post_T1_label, pre_T1_label, post_ADC_label,
pre_ADC_label]` in `_loadImages`. -/
def labelVolumesLoadOf (c : CaseSlots) : List (Option Name) :=
  [c.post_T1_label, c.pre_T1_label, c.post_ADC_label, c.pre_ADC_label]

/-- Python runtime errors that the modelled code can raise. -/
inductive PyErr where
  | typeError
  | unboundLocalError
deriving DecidableEq

/-- A segmentation node in the MRML scene: its name, its segment names, its
display visibility, its reference-image-geometry (master volume) reference
(the referenced volume node's name), and the voxel array of its first
segment — `none` when `slicer.util.arrayFromSegment` raises
`AttributeError`, as it does for an empty segment. -/
structure SegNodeM where
  name : Name
  segments : List Name
  visible : Bool
  refGeom : Option Name
  firstSegArray : Option (List Int)
deriving DecidableEq

/-- The eligibility test of `_saveMasks`: `np.mean(segment_array) == 0.0`.
When the array cannot be read, the `except AttributeError` branch sets
`segment_array = 0.0`, whose mean is `0.0`, so the test holds.  For a
non-empty integer voxel array the mean is exactly zero iff the sum is zero;
for an empty array `np.mean` is NaN, which compares unequal to `0.0`. -/
def segMeanZero (node : SegNodeM) : Bool :=
  match node.firstSegArray with
  | none => true
  | some a => !a.isEmpty && a.sum == 0

/-- The `for nodename, node in nodes.iteritems()` loop of `_saveMasks`.
`nameVar` is the Python local variable `name`, which persists across loop
iterations: when a node has no master-volume reference the code only prints
a warning without assigning `name`, so `name` keeps the value of the
previous iteration — and reading it when no iteration has assigned it yet
raises `UnboundLocalError`.  Returns the file names written and the error
that aborted the loop, if any. -/
def saveMasksLoop (folder : Name) (reader_name : Option Name) :
    List SegNodeM → Option Name → List Name → List Name × Option PyErr
  | [], _, written => (written, none)
  | node :: rest, nameVar, written =>
    if segMeanZero node then
      saveMasksLoop folder reader_name rest nameVar written
    else
      let nameVar := match node.refGeom with
        | some mv => some mv
        | none => nameVar
      match nameVar with
      | none => (written, some PyErr.unboundLocalError)
      | some nm =>
        let nm := match reader_name with
          | some r => nm ++ tumorSep ++ r
          | none => nm
        let filename := folder ++ "/".data ++ nm ++ niiSuffix
        saveMasksLoop folder reader_name rest (some nm) (written ++ [filename])

/-- `_saveMasks(nodes, folder, reader_name)`: run the save loop over the
nodes with the local `name` not yet bound and nothing written. -/
def _saveMasks (nodes : List SegNodeM) (folder : Name) (reader_name : Option Name) :
    List Name × Option PyErr :=
  saveMasksLoop folder reader_name nodes none []

/-- A Python dict comprehension keyed by node name: the first insertion of a
name fixes its position, a later duplicate name overwrites the value. -/
def dictByName (ns : List SegNodeM) : List SegNodeM :=
  ns.foldl (fun acc n =>
    if acc.any (fun m => m.name == n.name) then
      acc.map (fun m => if m.name == n.name then n else m)
    else acc ++ [n]) []

/-- The per-case state of `SlicerCaseHCCIteratorLogic` relevant to closing:
the `mask_nodes` registry, the segmentation nodes currently in the scene
(`slicer.util.getNodesByClass('vtkMRMLSegmentationNode')`, in scene order),
and the output directory `image_root`. -/
structure CaseState where
  mask_nodes : List SegNodeM
  sceneSegs : List SegNodeM
  image_root : Name
deriving DecidableEq

/-- `__init__` sets `self.mask_nodes = OrderedDict()`, and no statement of
the active HCC load path (`load_data_to_placeholders`,
`select_placeholder_for_view`, `_loadImages`) ever inserts into it — the
statements that fill `mask_nodes` live only in the commented-out generic
loader — so at close time the registry is still empty. -/
def initial_mask_nodes : List SegNodeM := []

/-- `closeCase(save_loaded_masks, save_new_masks, reader_name)`: an empty
reader name is first replaced by `None`, after which
`print("Saving Segmentations for " + reader_name)` raises `TypeError`
whenever `reader_name` is `None`.  Otherwise the scene's segmentation nodes
are split by name into `loaded_masks` (registered in `mask_nodes`) and
`new_masks` (all others), and each group is saved by `_saveMasks` when its
flag is set and the group is non-empty.  Returns the files written and the
first error raised. -/
def closeCase (c : CaseState) (save_loaded_masks save_new_masks : Bool)
    (reader_name : Option Name) : List Name × Option PyErr :=
  let reader_name := if reader_name = some ([] : Name) then none else reader_name
  match reader_name with
  | none => ([], some PyErr.typeError)
  | some r =>
    let loaded_masks := dictByName c.mask_nodes
    let new_masks := dictByName (c.sceneSegs.filter
        (fun n => !(loaded_masks.any (fun m => m.name == n.name))))
    let r1 := if save_loaded_masks && !loaded_masks.isEmpty then
        _saveMasks loaded_masks c.image_root (some r) else ([], none)
    match r1.2 with
    | some e => (r1.1, some e)
    | none =>
      let r2 := if save_new_masks && !new_masks.isEmpty then
          _saveMasks new_masks c.image_root (some r) else ([], none)
      (r1.1 ++ r2.1, r2.2)

/-- The failing input for claim C3: the case state obtained after loading a
subject whose directory holds one non-empty tumor segmentation
(`post_T1_EA_segment`, first-segment voxel array `[1]`, master volume
`post_T1_EA`): the segmentation node is in the scene, while the `mask_nodes`
registry is `initial_mask_nodes`, i.e. empty. -/
def loadedSegCase : CaseState where
  mask_nodes := initial_mask_nodes
  sceneSegs := [⟨"post_T1_EA_segment".data, ["Target".data, "Background".data],
    true, some "post_T1_EA".data, some [1]⟩]
  image_root := "root".data

/-- The per-view body of the second loop of `_loadImages`, for one slice
view with background volume `vol` and label slot `lab`, acting on the list
of segmentation nodes in the scene.  If no volume is assigned the view is
left alone; if a volume but no label is assigned, a new segmentation node
named `<volume>_segment` is added to the scene, geometry-bound to the
volume, with two empty segments `Target` and `Background` (its fresh
display node defaults to visible; its segments are empty, so reading the
first segment's array raises `AttributeError`, modelled as `none`); if both
are assigned, the existing segmentation node is made visible and
geometry-bound to the volume. -/
def loadImagesViewStep (scene : List SegNodeM) (vol lab : Option Name) : List SegNodeM :=
  match vol with
  | none => scene
  | some v =>
    match lab with
    | none =>
      scene ++ [⟨v ++ segSuffix, ["Target".data, "Background".data], true, some v, none⟩]
    | some segName =>
      scene.map (fun n => if n.name == segName then
        { n with visible := true, refGeom := some v } else n)

/-- The second loop of `_loadImages`: the four sorted slice views paired
with `volumesLoad` and `labelVolumesLoad`, processed in order. -/
def loadImagesViews (vols labs : List (Option Name)) (scene : List SegNodeM) :
    List SegNodeM :=
  (vols.zip labs).foldl (fun sc p => loadImagesViewStep sc p.1 p.2) scene

/-- Log messages of the widget paths modelled here. -/
inductive LogMsg where
  | warnFirstCase
  | warnNoCases
  | allDone
deriving DecidableEq

/-- The state of `SlicerCaseIteratorWidget`: the iteration cursor
`currentIdx` (`-1` when no batch is loaded), the manifest row count
`caseCount`, the GUI mode set by `_setGUIstate` (`csv_loaded`), the open
case, the table-node reference, the two save checkboxes, the reader-name
text field, and the log. -/
structure WidgetState where
  currentIdx : Int
  caseCount : Nat
  csv_loaded : Bool
  currentCase : Option CaseState
  tableNode : Bool
  chkSaveMasks : Bool
  chkSaveNewMasks : Bool
  txtReaderName : Name
  log : List LogMsg
deriving DecidableEq

/-- `_setGUIstate(csv_loaded)`: recorded as the GUI mode flag (button
enabling, shortcut and observer registration follow this flag). -/
def setGUIstate (s : WidgetState) (csv_loaded : Bool) : WidgetState :=
  { s with csv_loaded := csv_loaded }

/-- `_startBatch(start)`: store the table's row count in `caseCount`; when
there are fewer rows than the requested start position, warn and report
failure; otherwise switch the GUI to batch mode and set the cursor to
`start - 1`. -/
def startBatch (s : WidgetState) (start tableRows : Nat) : WidgetState × Bool :=
  let s := { s with caseCount := tableRows }
  if tableRows < start then
    ({ s with log := s.log ++ [LogMsg.warnNoCases] }, false)
  else
    ({ setGUIstate s true with currentIdx := (start : Int) - 1 }, true)

/-- The tail of `loadCase` after the current case (if any) has been closed:
`self.currentIdx += idx_change`; past the last row, reset the GUI, the
cursor and the table-node reference and log the end of the batch; otherwise
construct the next row's case.  `env` maps a row index to the case object
that `SlicerCaseHCCIteratorLogic` builds for that row (the scene and
filesystem contents are collaborators outside the widget). -/
def loadCaseAfterClose (env : Int → CaseState) (s : WidgetState) (idx_change : Int) :
    WidgetState :=
  if s.currentIdx + idx_change ≥ (s.caseCount : Int) then
    { setGUIstate s false with
        currentIdx := -1, tableNode := false, log := s.log ++ [LogMsg.allDone] }
  else
    { s with
        currentIdx := s.currentIdx + idx_change,
        currentCase := some (env (s.currentIdx + idx_change)) }

/-- `loadCase(idx_change)`: no-op when no batch is active; a retreat below
row 0 only logs a warning; otherwise an open case is closed first — a Python
error raised by `closeCase` propagates, leaving the widget state unchanged
(nothing has been mutated yet at that point), while on success the scene
close event handler `onEndClose` clears `currentCase` — and then the cursor
moves. -/
def loadCase (env : Int → CaseState) (s : WidgetState) (idx_change : Int) :
    WidgetState × Option PyErr :=
  if s.currentIdx < 0 then (s, none)
  else if s.currentIdx + idx_change < 0 then
    ({ s with log := s.log ++ [LogMsg.warnFirstCase] }, none)
  else
    match s.currentCase with
    | some c =>
      match (closeCase c s.chkSaveMasks s.chkSaveNewMasks (some s.txtReaderName)).2 with
      | some e => (s, some e)
      | none => (loadCaseAfterClose env { s with currentCase := none } idx_change, none)
    | none => (loadCaseAfterClose env s idx_change, none)

/-- `onReset`: with no batch active, `_startBatch(npStart.value)` followed by
`loadCase(0)` on success; with a batch active, a full reset to the
no-batch-loaded state. -/
def onReset (env : Int → CaseState) (s : WidgetState) (start tableRows : Nat) :
    WidgetState × Option PyErr :=
  if s.currentIdx < 0 then
    match startBatch s start tableRows with
    | (s1, true) => loadCase env s1 0
    | (s1, false) => (s1, none)
  else
    ({ setGUIstate s false with currentCase := none, currentIdx := -1 }, none)

/-- The cursor invariant: either no batch is active (`-1`) or the cursor is
a valid manifest row index. -/
def invCursor (s : WidgetState) : Prop :=
  s.currentIdx = -1 ∨ (0 ≤ s.currentIdx ∧ s.currentIdx < (s.caseCount : Int))

/-- Closing the open case (if any) with the widget's current flags and
reader name completes without a Python error. -/
def closeSucceeds (s : WidgetState) : Prop :=
  ∀ c, s.currentCase = some c →
    (closeCase c s.chkSaveMasks s.chkSaveNewMasks (some s.txtReaderName)).2 = none

/-- An environment for concrete runs: every row loads to an empty case. -/
def envW : Int → CaseState := fun _ => { mask_nodes := [], sceneSegs := [], image_root := [] }

/-- A case with no segmentations, whose close always succeeds. -/
def caseEmpty : CaseState where
  mask_nodes := []
  sceneSegs := []
  image_root := "root".data

/-- A widget state at row 0 of a 2-row batch, no case open, reader `r`. -/
def stateAt0 : WidgetState where
  currentIdx := 0
  caseCount := 2
  csv_loaded := true
  currentCase := none
  tableNode := true
  chkSaveMasks := true
  chkSaveNewMasks := true
  txtReaderName := "r".data
  log := []

/-- A widget state at the last row of a 2-row batch with an open (empty)
case and reader `r`. -/
def stateEnd : WidgetState where
  currentIdx := 1
  caseCount := 2
  csv_loaded := true
  currentCase := some caseEmpty
  tableNode := true
  chkSaveMasks := true
  chkSaveNewMasks := true
  txtReaderName := "r".data
  log := []

/-- A widget state at the last row of a 1-row batch with an open (empty)
case and the reader-name field left at its default, the empty string. -/
def stateEndEmptyReader : WidgetState where
  currentIdx := 0
  caseCount := 1
  csv_loaded := true
  currentCase := some caseEmpty
  tableNode := true
  chkSaveMasks := true
  chkSaveNewMasks := true
  txtReaderName := []
  log := []

end SCI

namespace SCI

theorem volSlot_assignRaw (s : CaseSlots) (p : Name × Nat) (k : Nat) (hk : k < 18) :
    volSlot (assignRaw s p) k = if p.2 = k then some p.1 else volSlot s k := by
  obtain ⟨v, n⟩ := p
  rcases Nat.lt_or_ge n 18 with h | h
  · interval_cases n <;> interval_cases k <;> simp [assignRaw, volSlot]
  · have hs : assignRaw s (v, n) = s := by
      simp only [assignRaw]
      iterate 18 rw [if_neg (by omega)]
    rw [hs, if_neg (by omega)]

theorem labSlot_assignRaw (s : CaseSlots) (p : Name × Nat) (vw : Nat) (hv : vw < 4) :
    labSlot (assignRaw s p) vw = labSlot s vw := by
  obtain ⟨v, n⟩ := p
  rcases Nat.lt_or_ge n 18 with h | h
  · interval_cases n <;> interval_cases vw <;> simp [assignRaw, labSlot]
  · have hs : assignRaw s (v, n) = s := by
      simp only [assignRaw]
      iterate 18 rw [if_neg (by omega)]
    rw [hs]

theorem labSlot_assignLabel (s : CaseSlots) (p : Name × Nat) (vw : Nat) (hv : vw < 4) :
    labSlot (assignLabel s p) vw
      = if p.2 ∈ labCounts vw then some p.1 else labSlot s vw := by
  obtain ⟨v, n⟩ := p
  rcases Nat.lt_or_ge n 18 with h | h
  · interval_cases n <;> interval_cases vw <;> simp [assignLabel, labSlot, labCounts]
  · have hs : assignLabel s (v, n) = s := by
      simp only [assignLabel]
      iterate 4 rw [if_neg (by omega)]
    rw [hs, if_neg (by interval_cases vw <;> simp [labCounts] <;> omega)]

theorem volSlot_assignLabel (s : CaseSlots) (p : Name × Nat) (k : Nat) (hk : k < 18) :
    volSlot (assignLabel s p) k = volSlot s k := by
  obtain ⟨v, n⟩ := p
  rcases Nat.lt_or_ge n 18 with h | h
  · interval_cases n <;> interval_cases k <;> simp [assignLabel, volSlot]
  · have hs : assignLabel s (v, n) = s := by
      simp only [assignLabel]
      iterate 4 rw [if_neg (by omega)]
    rw [hs]

theorem volSlot_foldl_assignRaw (l : List (Name × Nat)) (s : CaseSlots) (k : Nat)
    (hk : k < 18) :
    (volSlot (l.foldl assignRaw s) k).isSome
      = ((volSlot s k).isSome || l.any (fun p => decide (p.2 = k))) := by
  induction l generalizing s with
  | nil => simp
  | cons p l ih =>
    rw [List.foldl_cons, ih (assignRaw s p), List.any_cons,
      volSlot_assignRaw s p k hk]
    by_cases h : p.2 = k
    · simp [h]
    · simp [h]

theorem labSlot_foldl_assignLabel (l : List (Name × Nat)) (s : CaseSlots) (vw : Nat)
    (hv : vw < 4) :
    (labSlot (l.foldl assignLabel s) vw).isSome
      = ((labSlot s vw).isSome || l.any (fun p => decide (p.2 ∈ labCounts vw))) := by
  induction l generalizing s with
  | nil => simp
  | cons p l ih =>
    rw [List.foldl_cons, ih (assignLabel s p), List.any_cons,
      labSlot_assignLabel s p vw hv]
    by_cases h : p.2 ∈ labCounts vw
    · simp [h]
    · simp [h]

theorem volSlot_foldl_assignLabel (l : List (Name × Nat)) (s : CaseSlots) (k : Nat)
    (hk : k < 18) :
    volSlot (l.foldl assignLabel s) k = volSlot s k := by
  induction l generalizing s with
  | nil => rfl
  | cons p l ih => rw [List.foldl_cons, ih (assignLabel s p), volSlot_assignLabel s p k hk]

theorem labSlot_foldl_assignRaw (l : List (Name × Nat)) (s : CaseSlots) (vw : Nat)
    (hv : vw < 4) :
    labSlot (l.foldl assignRaw s) vw = labSlot s vw := by
  induction l generalizing s with
  | nil => rfl
  | cons p l ih => rw [List.foldl_cons, ih (assignRaw s p), labSlot_assignRaw s p vw hv]

theorem select_volSlot (reader : Name) (listing : List Name) (k : Nat) (hk : k < 18) :
    (volSlot (select_placeholder_for_view reader listing) k).isSome
      = (load_data_to_placeholders reader listing).1.any (fun p => decide (p.2 = k)) := by
  unfold select_placeholder_for_view
  rw [volSlot_foldl_assignLabel _ _ _ hk, volSlot_foldl_assignRaw _ _ _ hk]
  have he : volSlot emptyCase k = none := by interval_cases k <;> rfl
  simp [he]

theorem select_labSlot (reader : Name) (listing : List Name) (vw : Nat) (hv : vw < 4) :
    (labSlot (select_placeholder_for_view reader listing) vw).isSome
      = (load_data_to_placeholders reader listing).2.any
          (fun p => decide (p.2 ∈ labCounts vw)) := by
  unfold select_placeholder_for_view
  rw [labSlot_foldl_assignLabel _ _ _ hv, labSlot_foldl_assignRaw _ _ _ hv]
  have he : labSlot emptyCase vw = none := by interval_cases vw <;> rfl
  simp [he]

theorem foldl_scanStep (reader i : Name) (js : List (Name × Nat))
    (acc : List (Name × Nat) × List (Name × Nat)) :
    js.foldl (scanStep reader i) acc
      = (acc.1 ++ (js.filter (fun jc => volMatch jc.1 i)).map (fun jc => (i, jc.2)),
         acc.2 ++ (js.filter (fun jc => labMatch reader jc.1 i)).map
           (fun jc => (jc.1 ++ segSuffix, jc.2))) := by
  induction js generalizing acc with
  | nil => simp
  | cons jc js ih =>
    rw [List.foldl_cons, ih]
    unfold scanStep
    by_cases hv : volMatch jc.1 i <;> by_cases hl : labMatch reader jc.1 i <;>
      simp [hv, hl, List.filter_cons]

theorem load_bind (reader : Name) (listing : List Name) :
    load_data_to_placeholders reader listing
      = (listing.flatMap fileRaws, listing.flatMap (fileLabels reader)) := by
  suffices h : ∀ acc, listing.foldl (fun acc i => images.foldl (scanStep reader i) acc) acc
      = (acc.1 ++ listing.flatMap fileRaws, acc.2 ++ listing.flatMap (fileLabels reader)) by
    simpa [load_data_to_placeholders] using h ([], [])
  induction listing with
  | nil => intro acc; simp
  | cons i l ih =>
    intro acc
    rw [List.foldl_cons, foldl_scanStep, ih]
    simp [fileRaws, fileLabels, List.flatMap_cons]

theorem any_bind_eq (l : List α) (f : α → List β) (p : β → Bool) :
    (l.flatMap f).any p = l.any (fun a => (f a).any p) := by
  induction l with
  | nil => rfl
  | cons a l ih => simp [List.flatMap_cons, ih]

theorem any_filter_eq (l : List α) (q p : α → Bool) :
    (l.filter q).any p = l.any (fun a => q a && p a) := by
  induction l with
  | nil => rfl
  | cons a l ih => by_cases h : q a <;> simp [List.filter_cons, h, ih]


theorem any_map_eq (l : List α) (f : α → β) (p : β → Bool) :
    (l.map f).any p = l.any (fun a => p (f a)) := by
  induction l with
  | nil => rfl
  | cons a l ih => simp [ih]

theorem any_fileRaws (i : Name) (k : Nat) :
    (fileRaws i).any (fun p => decide (p.2 = k))
      = images.any (fun jc => volMatch jc.1 i && decide (jc.2 = k)) := by
  unfold fileRaws
  rw [any_map_eq, any_filter_eq]

theorem any_fileLabels (reader i : Name) (vw : Nat) :
    (fileLabels reader i).any (fun p => decide (p.2 ∈ labCounts vw))
      = images.any (fun jc => labMatch reader jc.1 i && decide (jc.2 ∈ labCounts vw)) := by
  unfold fileLabels
  rw [any_map_eq, any_filter_eq]

theorem select_vol_char (reader : Name) (listing : List Name) (j : Name) (k : Nat)
    (hjk : (j, k) ∈ images) :
    (volSlot (select_placeholder_for_view reader listing) k).isSome
      = listing.any (fun f => volMatch j f) := by
  have hk : k < 18 := by fin_cases hjk <;> omega
  rw [select_volSlot _ _ _ hk, load_bind, any_bind_eq]
  simp only [any_fileRaws]
  fin_cases hjk <;> simp [images]

theorem select_lab_char (reader : Name) (listing : List Name) (vw : Nat) (hv : vw < 4) :
    (labSlot (select_placeholder_for_view reader listing) vw).isSome
      = listing.any (fun f =>
          images.any (fun jc => labMatch reader jc.1 f && decide (jc.2 ∈ labCounts vw))) := by
  rw [select_labSlot _ _ _ hv, load_bind, any_bind_eq]
  simp only [any_fileLabels]

/-- Claim C1, amended.  Volume slots behave exactly as the claim states: for
each of the 18 canonical series names, the slot of that name is populated if
and only if the listing contains a file name whose lower-cased form contains
the lower-cased `<name>.nii.gz`.  The label part had to be amended: the code
has only four label slots, each shared between the two series of one view
(counts `[9,11]`, `[1,3]`, `[15,16]`, `[7,17]` in the `for i in labels` loop
of `select_placeholder_for_view`), so a label slot is populated if and only if
a file matches `<name>_tumor_<reader>.nii.gz` for EITHER of the two names
feeding that view, not exactly for one fixed name, and the ten `_pre`, `_sub`
and `_PV` series have no label slot at all. -/
theorem C1_slot_population (reader : Name) (listing : List Name) :
  (((select_placeholder_for_view reader listing).pre_T1_pre).isSome
      = listing.any (fun f => volMatch "pre_T1_pre".data f))
  ∧
  (((select_placeholder_for_view reader listing).pre_T1_EA).isSome
      = listing.any (fun f => volMatch "pre_T1_EA".data f))
  ∧
  (((select_placeholder_for_view reader listing).pre_T1_EA_sub).isSome
      = listing.any (fun f => volMatch "pre_T1_EA_sub".data f))
  ∧
  (((select_placeholder_for_view reader listing).pre_T1_LA).isSome
      = listing.any (fun f => volMatch "pre_T1_LA".data f))
  ∧
  (((select_placeholder_for_view reader listing).pre_T1_LA_sub).isSome
      = listing.any (fun f => volMatch "pre_T1_LA_sub".data f))
  ∧
  (((select_placeholder_for_view reader listing).pre_T1_PV).isSome
      = listing.any (fun f => volMatch "pre_T1_PV".data f))
  ∧
  (((select_placeholder_for_view reader listing).pre_T1_PV_sub).isSome
      = listing.any (fun f => volMatch "pre_T1_PV_sub".data f))
  ∧
  (((select_placeholder_for_view reader listing).pre_ADC).isSome
      = listing.any (fun f => volMatch "pre_ADC".data f))
  ∧
  (((select_placeholder_for_view reader listing).post_T1_pre).isSome
      = listing.any (fun f => volMatch "post_T1_pre".data f))
  ∧
  (((select_placeholder_for_view reader listing).post_T1_EA).isSome
      = listing.any (fun f => volMatch "post_T1_EA".data f))
  ∧
  (((select_placeholder_for_view reader listing).post_T1_EA_sub).isSome
      = listing.any (fun f => volMatch "post_T1_EA_sub".data f))
  ∧
  (((select_placeholder_for_view reader listing).post_T1_LA).isSome
      = listing.any (fun f => volMatch "post_T1_LA".data f))
  ∧
  (((select_placeholder_for_view reader listing).post_T1_LA_sub).isSome
      = listing.any (fun f => volMatch "post_T1_LA_sub".data f))
  ∧
  (((select_placeholder_for_view reader listing).post_T1_PV).isSome
      = listing.any (fun f => volMatch "post_T1_PV".data f))
  ∧
  (((select_placeholder_for_view reader listing).post_T1_PV_sub).isSome
      = listing.any (fun f => volMatch "post_T1_PV_sub".data f))
  ∧
  (((select_placeholder_for_view reader listing).post_ADC).isSome
      = listing.any (fun f => volMatch "post_ADC".data f))
  ∧
  (((select_placeholder_for_view reader listing).post_ADC_Eq_1).isSome
      = listing.any (fun f => volMatch "post_ADC_Eq_1".data f))
  ∧
  (((select_placeholder_for_view reader listing).pre_ADC_Eq_1).isSome
      = listing.any (fun f => volMatch "pre_ADC_Eq_1".data f))
  ∧
  (((select_placeholder_for_view reader listing).post_T1_label).isSome
      = listing.any (fun f =>
          labMatch reader "post_T1_EA".data f || labMatch reader "post_T1_LA".data f))
  ∧
  (((select_placeholder_for_view reader listing).pre_T1_label).isSome
      = listing.any (fun f =>
          labMatch reader "pre_T1_EA".data f || labMatch reader "pre_T1_LA".data f))
  ∧
  (((select_placeholder_for_view reader listing).post_ADC_label).isSome
      = listing.any (fun f =>
          labMatch reader "post_ADC".data f || labMatch reader "post_ADC_Eq_1".data f))
  ∧
  (((select_placeholder_for_view reader listing).pre_ADC_label).isSome
      = listing.any (fun f =>
          labMatch reader "pre_ADC".data f || labMatch reader "pre_ADC_Eq_1".data f)) := by
  refine ⟨?_, ?_, ?_, ?_, ?_, ?_, ?_, ?_, ?_, ?_, ?_, ?_, ?_, ?_, ?_, ?_, ?_, ?_, ?_, ?_, ?_, ?_⟩
  · exact select_vol_char reader listing _ 0 (by decide)
  · exact select_vol_char reader listing _ 1 (by decide)
  · exact select_vol_char reader listing _ 2 (by decide)
  · exact select_vol_char reader listing _ 3 (by decide)
  · exact select_vol_char reader listing _ 4 (by decide)
  · exact select_vol_char reader listing _ 5 (by decide)
  · exact select_vol_char reader listing _ 6 (by decide)
  · exact select_vol_char reader listing _ 7 (by decide)
  · exact select_vol_char reader listing _ 8 (by decide)
  · exact select_vol_char reader listing _ 9 (by decide)
  · exact select_vol_char reader listing _ 10 (by decide)
  · exact select_vol_char reader listing _ 11 (by decide)
  · exact select_vol_char reader listing _ 12 (by decide)
  · exact select_vol_char reader listing _ 13 (by decide)
  · exact select_vol_char reader listing _ 14 (by decide)
  · exact select_vol_char reader listing _ 15 (by decide)
  · exact select_vol_char reader listing _ 16 (by decide)
  · exact select_vol_char reader listing _ 17 (by decide)
  · simpa [images, labCounts] using select_lab_char reader listing 0 (by omega)
  · simpa [images, labCounts] using select_lab_char reader listing 1 (by omega)
  · simpa [images, labCounts] using select_lab_char reader listing 2 (by omega)
  · simpa [images, labCounts] using select_lab_char reader listing 3 (by omega)

/-- Claim C1, counterexample to the original label clause: a listing holding
only a `pre_T1_LA` tumor file populates `pre_T1_label`, the label slot that
belongs to the series `pre_T1_EA` (count 1), even though no file matches
`pre_t1_ea_tumor_r.nii.gz`; the per-name if-and-only-if is false. -/
theorem C1_counterexample :
    (((select_placeholder_for_view "r".data ["pre_T1_LA_tumor_r.nii.gz".data]).pre_T1_label).isSome
        = true)
    ∧ ((["pre_T1_LA_tumor_r.nii.gz".data].any
          (fun f => labMatch "r".data "pre_T1_EA".data f)) = false) := by
  constructor
  · decide
  · decide


theorem substStep_length (alt : Option Name) (vols labs : List (Option Name)) (idx : Nat) :
    (substStep alt vols labs idx).length = vols.length := by
  unfold substStep
  rcases labs.getD idx none with _ | seg
  · rfl
  · rcases alt with _ | a
    · rfl
    · dsimp only
      split_ifs <;> simp

theorem substStep_getD_ne (alt : Option Name) (vols labs : List (Option Name))
    (idx jdx : Nat) (h : idx ≠ jdx) :
    (substStep alt vols labs idx).getD jdx none = vols.getD jdx none := by
  unfold substStep
  rcases labs.getD idx none with _ | seg
  · rfl
  · rcases alt with _ | a
    · rfl
    · dsimp only
      split_ifs with hc
      · simp [List.getD_eq_getElem?_getD, List.getElem?_set_ne h]
      · rfl

theorem substStep_getD_self (alt : Option Name) (vols labs : List (Option Name))
    (idx : Nat) (seg altName : Name) (h0 : labs.getD idx none = some seg)
    (h1 : alt = some altName) (h2 : pyContains altName (stripSeg seg) = true)
    (hidx : idx < vols.length) :
    (substStep alt vols labs idx).getD idx none = some altName := by
  unfold substStep
  rw [h0, h1]
  simp [h2, List.getD_eq_getElem?_getD, List.getElem?_set_eq_of_lt _ hidx]


/-- Claim C2, amended.  For the post-contrast T1 view (index 0, alternate
volume `post_T1_LA`), the pre-contrast T1 view (index 1, alternate
`pre_T1_LA`) and the post-contrast ADC view (index 2, alternate
`post_ADC_Eq_1`): when the view's label slot holds a segmentation whose name
stripped at `"_segment"` occurs in the alternate volume's name, the
background volume assigned to that view by `correct_volumesLoad` is the
alternate volume.  The claim's fourth case (the pre-contrast ADC view,
index 3, alternate `pre_ADC_Eq_1`) had to be removed: its substitution block
is commented out in the source, so no substitution happens there (see the
counterexample). -/
theorem C2_view_substitution (c : CaseSlots) (vols labs : List (Option Name))
    (hlen : vols.length = 4) :
    (∀ seg la, labs.getD 0 none = some seg → c.post_T1_LA = some la →
        pyContains la (stripSeg seg) = true →
        (correct_volumesLoad c vols labs).getD 0 none = some la)
  ∧ (∀ seg la, labs.getD 1 none = some seg → c.pre_T1_LA = some la →
        pyContains la (stripSeg seg) = true →
        (correct_volumesLoad c vols labs).getD 1 none = some la)
  ∧ (∀ seg la, labs.getD 2 none = some seg → c.post_ADC_Eq_1 = some la →
        pyContains la (stripSeg seg) = true →
        (correct_volumesLoad c vols labs).getD 2 none = some la) := by
  unfold correct_volumesLoad
  refine ⟨?_, ?_, ?_⟩
  · intro seg la h0 h1 h2
    rw [substStep_getD_ne _ _ _ 2 0 (by omega), substStep_getD_ne _ _ _ 1 0 (by omega)]
    exact substStep_getD_self _ _ _ 0 seg la h0 h1 h2 (by omega)
  · intro seg la h0 h1 h2
    rw [substStep_getD_ne _ _ _ 2 1 (by omega)]
    exact substStep_getD_self _ _ _ 1 seg la h0 h1 h2
      (by rw [substStep_length]; omega)
  · intro seg la h0 h1 h2
    exact substStep_getD_self _ _ _ 2 seg la h0 h1 h2
      (by rw [substStep_length, substStep_length]; omega)

/-- Witness for C2: a concrete post-contrast T1 view whose segmentation
`post_T1_LA_segment` refers to the late-arterial volume `post_T1_LA`; the
substituted background of view 0 is the late-arterial volume. -/
theorem C2_witness :
    (correct_volumesLoad { post_T1_LA := some "post_T1_LA".data }
        [some "post_T1_EA".data, none, none, none]
        [some "post_T1_LA_segment".data, none, none, none]).getD 0 none
      = some "post_T1_LA".data :=
  (C2_view_substitution { post_T1_LA := some "post_T1_LA".data }
      [some "post_T1_EA".data, none, none, none]
      [some "post_T1_LA_segment".data, none, none, none] (by decide)).1
    "post_T1_LA_segment".data "post_T1_LA".data (by decide) (by decide) (by decide)

/-- Claim C2, counterexample for the pre-contrast ADC view: the view-3 label
`pre_ADC_Eq_1_segment` refers (after stripping `"_segment"`) to the alternate
volume `pre_ADC_Eq_1`, yet `correct_volumesLoad` leaves the view-3 background
at the primary `pre_ADC` volume, because the view-3 substitution block is
commented out in the source. -/
theorem C2_counterexample :
    (correct_volumesLoad { pre_ADC_Eq_1 := some "pre_ADC_Eq_1".data }
        [none, none, none, some "pre_ADC".data]
        [none, none, none, some "pre_ADC_Eq_1_segment".data]
      = [none, none, none, some "pre_ADC".data])
    ∧ pyContains "pre_ADC_Eq_1".data (stripSeg "pre_ADC_Eq_1_segment".data) = true := by
  constructor
  · rfl
  · decide


/-- Claim C6 (confirmed): a segmentation whose first-segment voxel array has
mean exactly zero — including the case where the array cannot be read at all
— contributes no output file: the save loop passes over it, leaving the
written-file list and the `name` variable untouched. -/
theorem C6_mean_zero_not_saved (folder : Name) (reader_name : Option Name)
    (node : SegNodeM) (rest : List SegNodeM) (nameVar : Option Name)
    (written : List Name) (h : segMeanZero node = true) :
    saveMasksLoop folder reader_name (node :: rest) nameVar written
      = saveMasksLoop folder reader_name rest nameVar written := by
  simp [saveMasksLoop, h]

/-- Witness for C6: a concrete all-zero segmentation is skipped. -/
theorem C6_witness :
    saveMasksLoop "root".data (some "r".data)
        [⟨"post_T1_EA_segment".data, ["Target".data, "Background".data], true,
          some "post_T1_EA".data, some [0, 0]⟩] none []
      = saveMasksLoop "root".data (some "r".data) [] none [] :=
  C6_mean_zero_not_saved "root".data (some "r".data) _ [] none [] (by decide)

/-- Claim C8, the code evaluated at the failing input: a single non-empty
segmentation without a master-volume (reference image geometry) reference
makes `_saveMasks` raise `UnboundLocalError` — the `else` branch only prints
a warning, after which `name += '_tumor_' + reader_name` reads the unbound
local `name` — so the save aborts instead of skipping, contradicting the
claim. -/
theorem C8_missing_master_aborts :
    _saveMasks [⟨"post_ADC_Eq_1_segment".data, ["Target".data], true, none, some [1]⟩]
        "root".data (some "r".data)
      = ([], some PyErr.unboundLocalError) := by
  decide

/-- Claim C3, the code evaluated at the failing input: a case holding one
non-empty segmentation that was present at load time (the HCC loader leaves
`mask_nodes` empty — `initial_mask_nodes`), closed with the save-loaded flag
set and the save-new flag clear, writes no file at all, although the claim
requires the loaded segmentation to be saved; with both flags set the same
case writes its file, but through the `new_masks` branch. -/
theorem C3_loaded_masks_never_saved :
    (closeCase loadedSegCase true false (some "r".data) = ([], none))
    ∧ (closeCase loadedSegCase true true (some "r".data)
        = (["root/post_T1_EA_tumor_r.nii.gz".data], none)) := by
  constructor
  · decide
  · decide

/-- Claim C10 (confirmed): calling `closeCase` with an empty reader name
replaces it by `None` and then raises `TypeError` while printing the status
string, before the loaded/new partition is computed and before anything is
saved — no file is written. -/
theorem C10_empty_reader_typeerror (c : CaseState) (save_loaded_masks save_new_masks : Bool) :
    closeCase c save_loaded_masks save_new_masks (some ([] : Name))
      = ([], some PyErr.typeError) := rfl


theorem loadCaseAfterClose_past_end (env : Int → CaseState) (s : WidgetState)
    (idx_change : Int) (h : (s.caseCount : Int) ≤ s.currentIdx + idx_change) :
    loadCaseAfterClose env s idx_change
      = { setGUIstate s false with
            currentIdx := -1, tableNode := false, log := s.log ++ [LogMsg.allDone] } := by
  unfold loadCaseAfterClose
  rw [if_pos (by omega)]

theorem loadCaseAfterClose_load (env : Int → CaseState) (s : WidgetState)
    (idx_change : Int) (h : s.currentIdx + idx_change < (s.caseCount : Int)) :
    loadCaseAfterClose env s idx_change
      = { s with
            currentIdx := s.currentIdx + idx_change,
            currentCase := some (env (s.currentIdx + idx_change)) } := by
  unfold loadCaseAfterClose
  rw [if_neg (by omega)]

theorem loadCase_at_neg (env : Int → CaseState) (s : WidgetState) (idx_change : Int)
    (h : s.currentIdx = -1) :
    loadCase env s idx_change = (s, none) := by
  unfold loadCase
  rw [if_pos (by omega)]

theorem invCursor_afterClose (env : Int → CaseState) (s : WidgetState) (idx_change : Int)
    (h : 0 ≤ s.currentIdx + idx_change) :
    invCursor (loadCaseAfterClose env s idx_change) := by
  unfold loadCaseAfterClose invCursor
  split_ifs with h3
  · exact Or.inl rfl
  · exact Or.inr ⟨show (0 : Int) ≤ s.currentIdx + idx_change from h,
      show s.currentIdx + idx_change < (s.caseCount : Int) by omega⟩

theorem invCursor_loadCase (env : Int → CaseState) (s : WidgetState) (idx_change : Int)
    (hs : invCursor s) :
    invCursor (loadCase env s idx_change).1 := by
  unfold loadCase
  split_ifs with h1 h2
  · exact hs
  · exact hs
  · rcases hcc : s.currentCase with _ | c
    · dsimp only
      exact invCursor_afterClose env s idx_change (by omega)
    · dsimp only
      rcases hcl : (closeCase c s.chkSaveMasks s.chkSaveNewMasks (some s.txtReaderName)).2
        with _ | e
      · dsimp only
        exact invCursor_afterClose env { s with currentCase := none } idx_change
          (show (0 : Int) ≤ s.currentIdx + idx_change by omega)
      · dsimp only
        exact hs

theorem invCursor_onReset (env : Int → CaseState) (s : WidgetState) (start tableRows : Nat)
    (hs : invCursor s) (hstart : 1 ≤ start) :
    invCursor (onReset env s start tableRows).1 := by
  unfold onReset
  split_ifs with h1
  · unfold startBatch
    split_ifs with h2
    · dsimp only
      have hm1 : s.currentIdx = -1 := by
        rcases hs with h | ⟨h, _⟩
        · exact h
        · omega
      exact Or.inl hm1
    · dsimp only
      apply invCursor_loadCase
      exact Or.inr ⟨show (0 : Int) ≤ (start : Int) - 1 by omega,
        show (start : Int) - 1 < (tableRows : Int) by omega⟩
  · exact Or.inl rfl

/-- Claim C5 (confirmed): with an active batch, a retreat request that would
move the cursor below row 0 logs a warning and changes nothing else — in
particular the cursor is unchanged, no case is closed, and no error is
raised. -/
theorem C5_retreat_before_zero (env : Int → CaseState) (s : WidgetState) (idx_change : Int)
    (h0 : 0 ≤ s.currentIdx) (h1 : s.currentIdx + idx_change < 0) :
    loadCase env s idx_change
      = ({ s with log := s.log ++ [LogMsg.warnFirstCase] }, none)
    ∧ (loadCase env s idx_change).1.currentIdx = s.currentIdx := by
  unfold loadCase
  rw [if_neg (by omega), if_pos h1]
  exact ⟨rfl, rfl⟩

/-- Witness for C5: retreating from row 0 leaves the cursor at 0 and only
logs the warning. -/
theorem C5_witness :
    loadCase envW stateAt0 (-1)
      = ({ stateAt0 with log := stateAt0.log ++ [LogMsg.warnFirstCase] }, none) :=
  (C5_retreat_before_zero envW stateAt0 (-1) (by decide) (by decide)).1

/-- Claim C4, amended.  With an active batch, advancing the cursor past the
final manifest row transitions the controller to the no-batch-loaded state —
cursor reset to `-1`, GUI out of batch mode, table-node reference dropped —
and no error is raised, PROVIDED closing the open case raises no Python
error (`closeSucceeds`).  The proviso had to be added: closing runs before
the cursor moves, and it raises `TypeError` whenever the reader-name field is
empty (its default — see the counterexample and claim C10), in which case no
transition happens. -/
theorem C4_advance_past_end (env : Int → CaseState) (s : WidgetState) (idx_change : Int)
    (h0 : 0 ≤ s.currentIdx) (h1 : (s.caseCount : Int) ≤ s.currentIdx + idx_change)
    (h2 : closeSucceeds s) :
    (loadCase env s idx_change).2 = none
    ∧ (loadCase env s idx_change).1.currentIdx = -1
    ∧ (loadCase env s idx_change).1.csv_loaded = false
    ∧ (loadCase env s idx_change).1.tableNode = false := by
  have hnn : ¬ s.currentIdx + idx_change < 0 := by omega
  unfold loadCase
  rw [if_neg (by omega), if_neg hnn]
  rcases hcc : s.currentCase with _ | c
  · dsimp only
    rw [loadCaseAfterClose_past_end env s idx_change h1]
    exact ⟨rfl, rfl, rfl, rfl⟩
  · dsimp only
    rw [h2 c hcc]
    dsimp only
    rw [loadCaseAfterClose_past_end env { s with currentCase := none } idx_change h1]
    exact ⟨rfl, rfl, rfl, rfl⟩

/-- Witness for C4: advancing from the last row of a 2-row batch with an
open case whose close succeeds resets the controller. -/
theorem C4_witness :
    (loadCase envW stateEnd 1).2 = none
    ∧ (loadCase envW stateEnd 1).1.currentIdx = -1 := by
  have h := C4_advance_past_end envW stateEnd 1 (by decide) (by decide)
    (fun c hc => by
      simp only [stateEnd] at hc
      cases hc
      decide)
  exact ⟨h.1, h.2.1⟩

/-- Claim C4, counterexample: at the last row of a batch with a case open
and the reader-name field at its default empty value, advancing past the end
raises `TypeError` inside `closeCase` before the cursor moves: the
controller does NOT transition to the no-batch state (the cursor stays at 0
and the GUI stays in batch mode), and an error IS raised. -/
theorem C4_counterexample :
    loadCase envW stateEndEmptyReader 1 = (stateEndEmptyReader, some PyErr.typeError)
    ∧ stateEndEmptyReader.currentIdx = 0
    ∧ stateEndEmptyReader.csv_loaded = true := by
  refine ⟨by decide, rfl, rfl⟩

/-- Claim C9 (confirmed): starting from any state satisfying the cursor
invariant, every controller operation — `loadCase` with any cursor change
(this covers advance `+1` and retreat `-1`), and `onReset` (which is the
start operation when no batch is active and the reset operation otherwise,
with any spinner value `start ≥ 1` and any table) — leaves the cursor either
`-1` or within `[0, caseCount)`; and when no batch is active (`cursor = -1`)
`loadCase` returns the state unchanged with no error. -/
theorem C9_cursor_invariant (env : Int → CaseState) (s : WidgetState) (idx_change : Int)
    (start tableRows : Nat) (hs : invCursor s) (hstart : 1 ≤ start) :
    invCursor (loadCase env s idx_change).1
    ∧ invCursor (onReset env s start tableRows).1
    ∧ (s.currentIdx = -1 → loadCase env s idx_change = (s, none)) :=
  ⟨invCursor_loadCase env s idx_change hs,
   invCursor_onReset env s start tableRows hs hstart,
   fun h => loadCase_at_neg env s idx_change h⟩

/-- Witness for C9 at a concrete state and operations. -/
theorem C9_witness :
    invCursor (loadCase envW stateAt0 1).1
    ∧ invCursor (onReset envW stateAt0 1 2).1
    ∧ (stateAt0.currentIdx = -1 → loadCase envW stateAt0 1 = (stateAt0, none)) :=
  C9_cursor_invariant envW stateAt0 1 1 2 (Or.inr ⟨by decide, by decide⟩) (by decide)

/-- Claim C7 (confirmed): for each view exactly one of three outcomes
occurs, matching the three-way `if/elif/else` of the second `_loadImages`
loop: with no volume assigned the scene is untouched (the view stays empty);
with a volume but no label, exactly one new segmentation node named
`<volume>_segment` is appended, geometry-bound to the volume, holding
exactly the two empty segments `Target` and `Background`; with both, the
existing segmentation node is made visible and geometry-bound to the
volume, and no node is added. -/
theorem C7_view_policy (scene : List SegNodeM) (vol lab : Option Name) :
    (vol = none → loadImagesViewStep scene vol lab = scene)
    ∧ (∀ v, vol = some v → lab = none →
        loadImagesViewStep scene vol lab
          = scene ++ [⟨v ++ segSuffix, ["Target".data, "Background".data],
              true, some v, none⟩])
    ∧ (∀ v segName, vol = some v → lab = some segName →
        loadImagesViewStep scene vol lab
          = scene.map (fun n => if n.name == segName then
              { n with visible := true, refGeom := some v } else n)) := by
  refine ⟨?_, ?_, ?_⟩
  · rintro rfl
    rfl
  · rintro v rfl rfl
    rfl
  · rintro v segName rfl rfl
    rfl

/-- Witness for C7: a volume-only view gets a fresh two-segment
segmentation bound to the volume. -/
theorem C7_witness :
    loadImagesViewStep [] (some "post_T1_EA".data) none
      = [⟨"post_T1_EA_segment".data, ["Target".data, "Background".data],
          true, some "post_T1_EA".data, none⟩] := by
  have h := (C7_view_policy [] (some "post_T1_EA".data) none).2.1 "post_T1_EA".data rfl rfl
  simpa using h

end SCI
